import Mathlib

/-!
# Verification of the XprlG transaction-submission core

Shallow embedding of the reliability core of `src/bot.js` (an automated
DeFi interaction agent for an EVM-compatible testnet), together with
proofs settling the frozen claims about it.

Embedded components and their source locations (all in `src/bot.js`
unless noted; `src/unnamed/part_001` contains an identical copy of
`withRetry` and `getGasPrice`):

* `getGasPrice`            — bot.js:493-512 (gas price estimator)
* `withRetry`              — bot.js:514-554 (retry/backoff/timeout core)
* `swapAmountOutMin`       — bot.js:666-679 (slippage floor in `performSwap`)
* `performRemoveLiquidityAmount` — bot.js:861-876 (`performRemoveLiquidity`)
* `checkAndRebalance`      — bot.js:999-1069 (rebalance policy)
* `applyEvent`             — the counter-mutation sites of `activityStats`

Conventions: JavaScript BigInt values are modelled as `Nat` (all the
quantities involved are non-negative, and BigInt division on
non-negative operands truncates exactly like `Nat` division);
JavaScript floating-point balance values are modelled as `ℚ`
(the comparisons the claims are about are order-theoretic and do not
hinge on binary rounding of the doubles involved); fallible steps are
modelled with `Except`/`Option`; the network is modelled as an explicit
script of per-attempt outcomes supplied to the retry core.
-/

namespace XprlG

/-! ## Data model for the retry core (`withRetry`, bot.js:514-554) -/

/-- A transaction receipt as observed by `withRetry`: the code inspects
`receipt.status` (1 = on-chain success, 0 = reverted) and logs
`receipt.blockNumber`. -/
structure Receipt where
  status : Nat
  blockNumber : Nat
deriving DecidableEq, Repr

/-- The distinguishable error kinds that can escape one attempt of the
`withRetry` loop body (bot.js:517-542).  Numeric `code` payloads stand
for the identity of an externally-produced error object, so that
"surfaces that exact error" is expressible. -/
inductive Err where
  /-- `getGasPrice` (the fee-data read) threw — bot.js:518. -/
  | estimateFail (code : Nat)
  /-- the action closure `func` itself threw (e.g. an insufficient-balance
  precondition failure detected before any network write) — bot.js:519. -/
  | closure (code : Nat)
  /-- `func` returned, but not a valid transaction object with a hash:
  `Error("Function did not return a valid transaction object.")` — bot.js:521-525. -/
  | invalidHandle
  /-- receipt arrived with `status === 0`:
  `Error("Transaction failed on-chain (status 0): ...")` — bot.js:539. -/
  | revertedOnChain (hash : Nat)
  /-- the timeout promise won the race:
  `Error("Transaction confirmation timed out.")` — bot.js:532. -/
  | confirmTimeout
  /-- receipt missing or with an unrecognized status:
  `Error("Transaction did not confirm or timed out: ...")` — bot.js:541. -/
  | noConfirm (hash : Nat)
  /-- `tx.wait()` itself rejected before the timer fired; its rejection
  is what the `Promise.race` propagates — bot.js:530-533. -/
  | waitFailed (code : Nat)
deriving DecidableEq, Repr

/-- Result of the `Promise.race` between `tx.wait()` and the timeout
timer (bot.js:530-533). -/
inductive RaceResult where
  /-- the timer rejected first. -/
  | timeout
  /-- `tx.wait()` resolved first, possibly with a null receipt. -/
  | receiptOf (r : Option Receipt)
  /-- `tx.wait()` rejected first with its own error. -/
  | waitThrew (code : Nat)
deriving DecidableEq, Repr

/-- The environment's behaviour on one attempt of the retry loop: which
of the fallible steps of the loop body (estimate, invoke closure,
validate handle, race confirmation) goes which way. -/
inductive Outcome where
  /-- `getGasPrice` threw; the closure is never invoked. -/
  | estimateFail (code : Nat)
  /-- the closure threw before returning a handle. -/
  | closureThrows (code : Nat)
  /-- the closure returned something without a `.hash` (or nullish). -/
  | invalidHandle
  /-- the closure returned a valid handle with this hash; the attempt
  proceeds to the confirmation race. -/
  | sent (hash : Nat) (race : RaceResult)
deriving DecidableEq, Repr

/-- Evaluation of one loop body on an outcome, mirroring
bot.js:517-542: success returns the receipt, every other path throws
the corresponding error. -/
def attemptEval : Outcome → Except Err Receipt
  | .estimateFail c => .error (.estimateFail c)
  | .closureThrows c => .error (.closure c)
  | .invalidHandle => .error .invalidHandle
  | .sent _ .timeout => .error .confirmTimeout
  | .sent h (.receiptOf (some r)) =>
      if r.status = 1 then .ok r
      else if r.status = 0 then .error (.revertedOnChain h)
      else .error (.noConfirm h)
  | .sent h (.receiptOf none) => .error (.noConfirm h)
  | .sent _ (.waitThrew c) => .error (.waitFailed c)

/-- Whether the attempt reaches `activityStats.totalTransactions++`
(bot.js:528): exactly the attempts on which the closure returned a
valid transaction handle. -/
def countsTx : Outcome → Bool
  | .sent _ _ => true
  | _ => false

/-- Whether the attempt reaches the invocation of the action closure
(bot.js:519): every attempt except those on which `getGasPrice`
already threw. -/
def invokesFunc : Outcome → Bool
  | .estimateFail _ => false
  | _ => true

/-- Contribution of one attempt to the total-transaction counter. -/
def txInc (o : Outcome) : Nat := if countsTx o then 1 else 0

/-- Contribution of attempt `i` to the list of closure invocations. -/
def funcCallsOf (o : Outcome) (i : Nat) : List Nat :=
  if invokesFunc o then [i] else []

/-- Observable trace of one `withRetry` call: how often
`activityStats.totalTransactions` was incremented, the durations of the
backoff sleeps performed (in order), the attempt indices passed to
`getGasPrice` (in order), and the attempt indices on which the action
closure was invoked (in order). -/
@[ext]
structure RunStats where
  txCount : Nat
  sleeps : List Nat
  gasCalls : List Nat
  funcCalls : List Nat
deriving DecidableEq, Repr

/-- What a `withRetry` call does for its caller: return a receipt
(`return receipt`, bot.js:537), throw (`throw error`, bot.js:549), or
fall off the loop and return null (bot.js:553). -/
inductive RetryResult where
  | ok (r : Receipt)
  | err (e : Err)
  | nil
deriving DecidableEq, Repr

/-- The loop of `withRetry` (bot.js:515-552), with the loop counter `i`
and the number `remaining` of iterations the `i < maxRetries` guard
still allows (`remaining = maxRetries - i`; the guard `i < maxRetries`
is `remaining > 0`, and the retry guard `i < maxRetries - 1`
(bot.js:546) is `remaining > 1`).  Each executed iteration records the
`getGasPrice i` call, the closure invocation (unless the estimate
threw), the counter increment (if the attempt reached bot.js:528), and
on a failed attempt with attempts remaining the backoff sleep of
`initialDelayMs * (i + 1)` milliseconds (bot.js:547). -/
def withRetryGo (script : Nat → Outcome) (initialDelayMs : Nat) :
    (i : Nat) → (remaining : Nat) → RetryResult × RunStats
  | _, 0 => (.nil, ⟨0, [], [], []⟩)
  | i, r + 1 =>
    let o := script i
    match attemptEval o with
    | .ok rec => (.ok rec, ⟨txInc o, [], [i], funcCallsOf o i⟩)
    | .error e =>
      if 0 < r then
        let rest := withRetryGo script initialDelayMs (i + 1) r
        (rest.1, ⟨txInc o + rest.2.txCount,
                  initialDelayMs * (i + 1) :: rest.2.sleeps,
                  i :: rest.2.gasCalls,
                  funcCallsOf o i ++ rest.2.funcCalls⟩)
      else (.err e, ⟨txInc o, [], [i], funcCallsOf o i⟩)

/-- `withRetry(func, maxRetries, initialDelayMs, ...)` (bot.js:514-554).
`maxRetries` is kept as an `Int` because the JavaScript parameter is an
arbitrary number: `for (let i = 0; i < maxRetries; i++)` executes
`max maxRetries 0 = maxRetries.toNat` iterations. -/
def withRetry (script : Nat → Outcome) (maxRetries : Int)
    (initialDelayMs : Nat) : RetryResult × RunStats :=
  withRetryGo script initialDelayMs 0 maxRetries.toNat

/-! ### General trace lemmas about the retry loop -/

/-- The counter is incremented exactly once per executed attempt whose
outcome reached the send (valid handle), never otherwise. -/
theorem withRetryGo_txCount (script : Nat → Outcome) (d : Nat) :
    ∀ r i, (withRetryGo script d i r).2.txCount =
      ((withRetryGo script d i r).2.gasCalls).countP
        (fun j => countsTx (script j)) := by
  intro r
  induction r with
  | zero => intro i; simp [withRetryGo]
  | succ r ih =>
    intro i
    rw [withRetryGo]
    cases h : attemptEval (script i) with
    | ok rec =>
      simp only [List.countP_cons, List.countP_nil, txInc]
      by_cases hc : countsTx (script i) <;> simp [hc]
    | error e =>
      by_cases hr : 0 < r
      · simp only [hr, if_pos, List.countP_cons, txInc, ih (i + 1)]
        by_cases hc : countsTx (script i)
        · simp [hc]
          omega
        · simp [hc]
      · simp only [hr, if_neg, List.countP_cons, List.countP_nil, txInc]
        by_cases hc : countsTx (script i)
        · simp [hc]
        · simp [hc]

/-- The closure is invoked on exactly the executed attempts whose gas
estimate did not throw. -/
theorem withRetryGo_funcCalls (script : Nat → Outcome) (d : Nat) :
    ∀ r i, (withRetryGo script d i r).2.funcCalls =
      ((withRetryGo script d i r).2.gasCalls).filter
        (fun j => invokesFunc (script j)) := by
  intro r
  induction r with
  | zero => intro i; simp [withRetryGo]
  | succ r ih =>
    intro i
    rw [withRetryGo]
    cases h : attemptEval (script i) with
    | ok rec =>
      simp only [funcCallsOf, List.filter]
      by_cases hc : invokesFunc (script i) <;> simp [hc]
    | error e =>
      by_cases hr : 0 < r
      · simp only [hr, if_pos, funcCallsOf, List.filter, ih (i + 1)]
        by_cases hc : invokesFunc (script i) <;> simp [hc]
      · simp only [hr, if_neg, funcCallsOf, List.filter]
        by_cases hc : invokesFunc (script i) <;> simp [hc]

/-- On a script every attempt of which fails, the loop performs all its
iterations: it calls the estimator with the consecutive attempt indices
`i, i+1, ..., i+r`, sleeps `d*(i+1), ..., d*(i+r)` between attempts,
and finally rethrows the error of the last attempt. -/
theorem withRetryGo_allFail (script : Nat → Outcome) (d : Nat)
    (es : Nat → Err) (hf : ∀ j, attemptEval (script j) = .error (es j)) :
    ∀ r i,
      (withRetryGo script d i (r + 1)).1 = .err (es (i + r)) ∧
      (withRetryGo script d i (r + 1)).2.sleeps =
        (List.range' (i + 1) r).map (fun k => d * k) ∧
      (withRetryGo script d i (r + 1)).2.gasCalls = List.range' i (r + 1) := by
  intro r
  induction r with
  | zero =>
    intro i
    rw [withRetryGo]
    simp [hf i, List.range'_succ]
  | succ r ih =>
    intro i
    rw [withRetryGo]
    simp only [hf i, Nat.succ_pos, if_pos]
    obtain ⟨h1, h2, h3⟩ := ih (i + 1)
    refine ⟨?_, ?_, ?_⟩
    · rw [h1]; congr 2; omega
    · rw [h2, List.range'_succ, List.map_cons]
    · rw [h3, List.range'_succ i, List.range'_succ (i + 1)]

/-- For a positive retry budget the loop never falls through to the
`return null` at bot.js:553: every call either returns a receipt or
throws. -/
theorem withRetryGo_ne_nil (script : Nat → Outcome) (d : Nat) :
    ∀ r i, (withRetryGo script d i (r + 1)).1 ≠ .nil := by
  intro r
  induction r with
  | zero =>
    intro i
    rw [withRetryGo]
    cases attemptEval (script i) <;> simp
  | succ r ih =>
    intro i
    rw [withRetryGo]
    cases attemptEval (script i) with
    | ok rec => simp
    | error e => simpa using ih (i + 1)

/-! ## Gas price estimator (`getGasPrice`, bot.js:493-512) -/

/-- The result of `provider.getFeeData()`.  Each field is a nullable
BigInt: `none` models a null/absent field, `some v` a BigInt value
(note `0n` is falsy in JavaScript, which the truthiness helpers below
reproduce). -/
structure FeeData where
  maxFeePerGas : Option Nat
  maxPriorityFeePerGas : Option Nat
  lastBaseFeePerGas : Option Nat
  gasPrice : Option Nat
deriving DecidableEq, Repr

/-- JavaScript truthiness of a nullable BigInt: null/undefined and `0n`
are falsy, every other BigInt truthy. -/
def jsTruthy : Option Nat → Bool
  | some v => v ≠ 0
  | none => false

/-- JavaScript `v || dflt` on a nullable BigInt. -/
def jsOr : Option Nat → Nat → Nat
  | some v, dflt => if v = 0 then dflt else v
  | none, dflt => dflt

/-- `Math.round(buffer * 100)` for
`buffer = 5.0 + retryAttempt * 1.0` (bot.js:496): the float arithmetic
is exact at every reachable attempt index, giving `500 + 100 * i`. -/
def bufferTimes100 (retryAttempt : Nat) : Nat := 500 + 100 * retryAttempt

/-- `ethers.parseUnits("1", "gwei")`, the default base fee (bot.js:501). -/
def ONE_GWEI : Nat := 10 ^ 9

/-- `ethers.parseUnits("20", "gwei")`, the default legacy gas price
(bot.js:507). -/
def TWENTY_GWEI : Nat := 20 * 10 ^ 9

/-- A gas quote as returned by `getGasPrice`: either the EIP-1559 pair
(bot.js:505) or the legacy single price (bot.js:510). -/
inductive GasQuote where
  | eip1559 (maxFeePerGas maxPriorityFeePerGas : Nat)
  | legacy (gasPrice : Nat)
deriving DecidableEq, Repr

/-- `getGasPrice(retryAttempt)` (bot.js:493-512), with the
`provider.getFeeData()` response passed explicitly.  All BigInt
multiplications/divisions are on non-negative values, so `Nat`
arithmetic coincides with BigInt truncating division. -/
def getGasPrice (feeData : FeeData) (retryAttempt : Nat) : GasQuote :=
  if jsTruthy feeData.maxFeePerGas && jsTruthy feeData.maxPriorityFeePerGas then
    let maxPriorityFeePerGas :=
      feeData.maxPriorityFeePerGas.getD 0 * bufferTimes100 retryAttempt / 100
    let baseFee := jsOr feeData.lastBaseFeePerGas ONE_GWEI
    let maxFeePerGas :=
      baseFee * bufferTimes100 retryAttempt / 100 + maxPriorityFeePerGas
    .eip1559 maxFeePerGas maxPriorityFeePerGas
  else
    let gasPrice := jsOr feeData.gasPrice TWENTY_GWEI
    .legacy (gasPrice * bufferTimes100 retryAttempt / 100)

/-- Strict positivity of every field of a gas quote. -/
def quotePos : GasQuote → Prop
  | .eip1559 f p => 0 < f ∧ 0 < p
  | .legacy g => 0 < g

/-- Any positive value scaled by the buffer stays strictly positive:
the buffer numerator is at least 500, so the truncating division by
100 cannot reach zero. -/
theorem scaled_pos {x : Nat} (hx : 1 ≤ x) (i : Nat) :
    0 < x * bufferTimes100 i / 100 := by
  apply Nat.div_pos ?_ (by norm_num)
  calc (100 : ℕ) ≤ 500 + 100 * i := by omega
    _ = 1 * (500 + 100 * i) := (one_mul _).symm
    _ ≤ x * (500 + 100 * i) := Nat.mul_le_mul_right _ hx
    _ = x * bufferTimes100 i := by rw [bufferTimes100]

/-- `v || dflt` is positive whenever the default is. -/
theorem jsOr_pos (v : Option Nat) {dflt : Nat} (hd : 0 < dflt) :
    1 ≤ jsOr v dflt := by
  cases v with
  | none => simpa [jsOr] using hd
  | some x =>
    by_cases hx : x = 0
    · simpa [jsOr, hx] using hd
    · simp only [jsOr, hx, if_false]
      omega

/-- Spec-side rendering of `round(b * 100)` for
`b = 5.0 + attemptIndex * 1.0`, computed in exact rational arithmetic
as the spec's words describe the buffer multiplier. -/
def specBufferScaled (attemptIndex : Nat) : ℤ :=
  round (((5 : ℚ) + attemptIndex * 1) * 100)

/-- Spec-side scaled multiplication `x * b`: "multiply by round(b*100)
then divide by 100, in that order, using big-integer division that
truncates toward zero" (spec §4.1). -/
def specScaledMul (x : Nat) (attemptIndex : Nat) : Nat :=
  x * (specBufferScaled attemptIndex).toNat / 100

/-- Gas quote computation following the words of spec §4.1 / claim C5:
`maxPriorityFeePerGas = priorityFeeSuggestion * b`,
`maxFeePerGas = baseFee * b + maxPriorityFeePerGas`, otherwise
`gasPrice = legacyGasPriceSuggestion * b`, each `* b` being the scaled
multiplication above. -/
def getGasPriceSpec (feeData : FeeData) (attemptIndex : Nat) : GasQuote :=
  if jsTruthy feeData.maxFeePerGas && jsTruthy feeData.maxPriorityFeePerGas then
    let prio := specScaledMul (feeData.maxPriorityFeePerGas.getD 0) attemptIndex
    .eip1559 (specScaledMul (jsOr feeData.lastBaseFeePerGas ONE_GWEI) attemptIndex + prio) prio
  else
    .legacy (specScaledMul (jsOr feeData.gasPrice TWENTY_GWEI) attemptIndex)

/-- The rational rounding in the spec-side buffer agrees with the
integer buffer of the code. -/
theorem specBufferScaled_toNat (i : Nat) :
    (specBufferScaled i).toNat = bufferTimes100 i := by
  have h : ((5 : ℚ) + i * 1) * 100 = ((500 + 100 * i : ℕ) : ℚ) := by
    push_cast
    ring
  rw [specBufferScaled, h, round_natCast, bufferTimes100, Int.toNat_natCast]

/-! ## Slippage floor (`performSwap`, bot.js:666-679) -/

/-- `BigInt(Math.round(SLIPPAGE_TOLERANCE_PERCENT * 100))` with the
configured `SLIPPAGE_TOLERANCE_PERCENT = 0.5` (bot.js:83, bot.js:669):
the basis-points slippage denominator. -/
def SLIPPAGE_TOLERANCE_DENOMINATOR : Nat :=
  (round (((1 : ℚ) / 2) * 100)).toNat

/-- The minimum-output floor of `performSwap` (bot.js:666-679).  The
input is the result of the `getAmountsOut` quote call: `some expected`
if it succeeded with expected output `expected` (in the out-token's
smallest unit), `none` if it threw.  On quote failure the catch block
sets the floor to `0` and the swap proceeds (bot.js:676-679); it does
not abort. -/
def swapAmountOutMin (quoteResult : Option Nat) : Nat :=
  match quoteResult with
  | some expectedAmountOutRaw =>
      expectedAmountOutRaw * (10000 - SLIPPAGE_TOLERANCE_DENOMINATOR) / 10000
  | none => 0

/-- The slippage floor as the spec words it:
`expected * (10000 - toleranceBps) / 10000` in truncating integer
arithmetic. -/
def specSlippageFloor (expected toleranceBps : Nat) : Nat :=
  expected * (10000 - toleranceBps) / 10000

/-- The configured slippage denominator evaluates to 50 basis points. -/
theorem slippage_denominator_eq : SLIPPAGE_TOLERANCE_DENOMINATOR = 50 := by
  have h : ((1 : ℚ) / 2) * 100 = ((50 : ℕ) : ℚ) := by norm_num
  rw [SLIPPAGE_TOLERANCE_DENOMINATOR, h, round_natCast, Int.toNat_natCast]

/-! ## Remove-liquidity burn amount (`performRemoveLiquidity`,
bot.js:843-902) -/

/-- The two precondition failures `performRemoveLiquidity` can throw
before any transaction is built or submitted. -/
inductive RemoveLiqError where
  /-- `Error("No LP tokens for ...")` — bot.js:866-869. -/
  | noLpTokens
  /-- `Error("Calculated LP amount to remove is zero.")` — bot.js:873-876. -/
  | zeroAmount
deriving DecidableEq, Repr

/-- The amount-computation phase of `performRemoveLiquidity`
(bot.js:864-876): given the wallet's pool-share balance and the
configured removal percentage, either fail with a precondition error
(before the approval and `removeLiquidityETH` submissions, which only
happen afterwards at bot.js:880-901) or return the burn amount
`lpBalance * removeAmountPercentage / 100` the submission will use. -/
def performRemoveLiquidityAmount (lpBalance removeAmountPercentage : Nat) :
    Except RemoveLiqError Nat :=
  if lpBalance = 0 then .error .noLpTokens
  else
    let lpAmountToRemove := lpBalance * removeAmountPercentage / 100
    if lpAmountToRemove = 0 then .error .zeroAmount
    else .ok lpAmountToRemove

/-! ## Rebalance policy (`checkAndRebalance`, bot.js:999-1069)

Balances are the `parseFloat`-parsed token balances; they and the
configured thresholds are modelled as exact rationals (the comparisons
involved are order-theoretic and the claims do not hinge on binary
rounding of the doubles).  A corrective swap submitted through
`withRetry` is recorded as a `SwapCall`. -/

/-- One corrective swap submitted through the retry core:
`performSwap(wallet, [inToken, outToken], amount, "AtoB", ...)`. -/
structure SwapCall where
  inToken : String
  outToken : String
  amount : ℚ
deriving DecidableEq, Repr

/-- `parseFloat(x.toFixed(4))`: rounding to four decimal places, as
applied to the positive swap amounts computed by the rebalancer
(bot.js:1012, bot.js:1047). -/
def round4 (x : ℚ) : ℚ := (round (x * 10000) : ℤ) / 10000

/-- `Object.keys(TOKENS)` in configured order (bot.js:34-39).  The
native asset `XRP` is not a key of `TOKENS`. -/
def TOKEN_KEYS : List String := ["WXRP", "RISE", "RIBBIT"]

/-- `Object.keys(REBALANCE_THRESHOLDS)` in configured order
(bot.js:71-75). -/
def REBALANCE_THRESHOLD_KEYS : List String := ["XRP", "RISE", "RIBBIT"]

/-- The configured `REBALANCE_THRESHOLDS` map (bot.js:71-75):
`XRP: 0.01, RISE: 0.005, RIBBIT: 0.005`.  Unconfigured symbols map to
`0`; the code never reads them. -/
def REBALANCE_THRESHOLDS (t : String) : ℚ :=
  if t = "XRP" then 1 / 100
  else if t = "RISE" then 1 / 200
  else if t = "RIBBIT" then 1 / 200
  else 0

/-- The donor-selection loop of the primary-asset branch
(bot.js:1008-1027): walk the configured token list; skip a token if it
is `"XRP"` or its balance is below `REBALANCE_THRESHOLDS.XRP * 2`
(bot.js:1009 — note: double the PRIMARY asset's threshold, not the
donor's own); skip it if the computed 5% amount is not positive
(bot.js:1012-1016); otherwise this token receives the (single) swap
attempt: on success the loop breaks (bot.js:1025), and on a thrown
error control leaves the loop through the surrounding catch
(bot.js:1031), so no later token is tried either way. -/
def donorScan (thresholdXRP : ℚ) (bal : String → ℚ) :
    List String → Option (String × ℚ)
  | [] => none
  | t :: rest =>
    if t = "XRP" ∨ bal t < thresholdXRP * 2 then donorScan thresholdXRP bal rest
    else
      let amountToSwap := round4 (bal t * (5 / 100))
      if amountToSwap ≤ 0 then donorScan thresholdXRP bal rest
      else some (t, amountToSwap)

/-- Donor eligibility as a predicate: the complement of the two `continue`
conditions of the loop above. -/
def donorEligible (thresholdXRP : ℚ) (bal : String → ℚ) (t : String) : Bool :=
  decide (¬(t = "XRP" ∨ bal t < thresholdXRP * 2) ∧
          ¬(round4 (bal t * (5 / 100)) ≤ 0))

/-- The secondary branch (bot.js:1038-1068): scan the configured
threshold keys; for the first non-primary token below its own
threshold, swap 1% of the primary asset into it when the primary
balance exceeds double its threshold (the `continue` at bot.js:1050
moves on when the 1% amount is not positive; the `return` at
bot.js:1066 ends the scan otherwise, swap attempted or not). -/
def secondaryScan (thr bal : String → ℚ) : List String → List SwapCall
  | [] => []
  | t :: rest =>
    if t = "XRP" then secondaryScan thr bal rest
    else if bal t < thr t then
      if thr "XRP" * 2 < bal "XRP" then
        if round4 (bal "XRP" * (1 / 100)) ≤ 0 then secondaryScan thr bal rest
        else [⟨"XRP", t, round4 (bal "XRP" * (1 / 100))⟩]
      else []
    else secondaryScan thr bal rest

/-- `checkAndRebalance(wallet)` (bot.js:999-1069), as the list of
corrective swaps it submits through `withRetry`, in order.  The
primary branch runs when the primary balance is below its threshold
(bot.js:1004) and returns without falling through to the secondary
scan (bot.js:1034). -/
def checkAndRebalance (tokens thrKeys : List String) (thr bal : String → ℚ) :
    List SwapCall :=
  if bal "XRP" < thr "XRP" then
    match donorScan (thr "XRP") bal tokens with
    | some (t, amt) => [⟨t, "XRP", amt⟩]
    | none => []
  else secondaryScan thr bal thrKeys

/-- Donor selection as claim C8 words it: the first scanned asset that
is not the primary one, is configured (appears among the threshold
keys), and holds at least double ITS OWN threshold. -/
def specSelectDonor (tokens thrKeys : List String) (thr bal : String → ℚ) :
    Option String :=
  tokens.find? (fun t =>
    decide (t ≠ "XRP" ∧ t ∈ thrKeys ∧ thr t * 2 ≤ bal t))

/-- The donor scan is exactly "first eligible token in configured
order": it agrees with `List.find?` over the eligibility predicate,
paired with the 5% swap amount. -/
theorem donorScan_eq_find (thresholdXRP : ℚ) (bal : String → ℚ) :
    ∀ tokens : List String,
      donorScan thresholdXRP bal tokens =
        (tokens.find? (donorEligible thresholdXRP bal)).map
          (fun t => (t, round4 (bal t * (5 / 100)))) := by
  intro tokens
  induction tokens with
  | nil => rfl
  | cons t rest ih =>
    rw [donorScan, List.find?]
    by_cases h1 : t = "XRP" ∨ bal t < thresholdXRP * 2
    · have he : donorEligible thresholdXRP bal t = false := by
        simp [donorEligible, h1]
      rw [if_pos h1, he, ih]
    · by_cases h2 : round4 (bal t * (5 / 100)) ≤ 0
      · have he : donorEligible thresholdXRP bal t = false := by
          simp [donorEligible, h2]
        rw [if_neg h1, he]
        simpa [h2] using ih
      · have he : donorEligible thresholdXRP bal t = true := by
          simp [donorEligible, h1, h2]
        rw [if_neg h1, he]
        simp [h2]

/-- The secondary scan submits at most one corrective swap. -/
theorem secondaryScan_length_le_one (thr bal : String → ℚ) :
    ∀ keys : List String, (secondaryScan thr bal keys).length ≤ 1 := by
  intro keys
  induction keys with
  | nil => simp [secondaryScan]
  | cons t rest ih =>
    rw [secondaryScan]
    by_cases h1 : t = "XRP"
    · rw [if_pos h1]; exact ih
    · rw [if_neg h1]
      by_cases h2 : bal t < thr t
      · rw [if_pos h2]
        by_cases h3 : thr "XRP" * 2 < bal "XRP"
        · rw [if_pos h3]
          by_cases h4 : round4 (bal "XRP" * (1 / 100)) ≤ 0
          · rw [if_pos h4]; exact ih
          · rw [if_neg h4]; simp
        · rw [if_neg h3]; simp
      · rw [if_neg h2]; exact ih

/-! ## Activity counters (`activityStats`, bot.js:109-119)

The eight counter fields of the process-wide `activityStats` record,
together with the complete set of operations the program performs on
them during a run.  Every mutation site in the source is a single
post-increment; the events below enumerate them all
(`loadState`/`saveState` at bot.js:1278-1287 only log and never write
the counters). -/

/-- The counter fields of `activityStats` (bot.js:109-119;
`lastActivity` is not a counter). -/
structure ActivityStats where
  totalTransactions : Nat
  swaps : Nat
  addsLiquidity : Nat
  removesLiquidity : Nat
  sendsAndReceives : Nat
  randomSends : Nat
  customContractCalls : Nat
  rebalances : Nat
deriving DecidableEq, Repr

/-- The counter-mutating operations of the program, one per mutation
site in the source. -/
inductive StatsEvent where
  /-- `activityStats.totalTransactions++` — bot.js:528 (`withRetry`). -/
  | txSent
  /-- `activityStats.swaps++` — bot.js:1132. -/
  | swapConfirmed
  /-- `activityStats.addsLiquidity++` — bot.js:1143. -/
  | addLiquidityConfirmed
  /-- `activityStats.removesLiquidity++` — bot.js:1151. -/
  | removeLiquidityConfirmed
  /-- `activityStats.sendsAndReceives++` — bot.js:1159. -/
  | sendAndReceiveConfirmed
  /-- `activityStats.randomSends++` — bot.js:1167. -/
  | randomSendConfirmed
  /-- `activityStats.customContractCalls++` — bot.js:1175. -/
  | customCallConfirmed
  /-- `activityStats.rebalances++` — bot.js:1023 and bot.js:1058. -/
  | rebalanceConfirmed
deriving DecidableEq, Repr

/-- Effect of one counter mutation on the stats record. -/
def applyEvent : StatsEvent → ActivityStats → ActivityStats
  | .txSent, s => { s with totalTransactions := s.totalTransactions + 1 }
  | .swapConfirmed, s => { s with swaps := s.swaps + 1 }
  | .addLiquidityConfirmed, s => { s with addsLiquidity := s.addsLiquidity + 1 }
  | .removeLiquidityConfirmed, s =>
      { s with removesLiquidity := s.removesLiquidity + 1 }
  | .sendAndReceiveConfirmed, s =>
      { s with sendsAndReceives := s.sendsAndReceives + 1 }
  | .randomSendConfirmed, s => { s with randomSends := s.randomSends + 1 }
  | .customCallConfirmed, s =>
      { s with customContractCalls := s.customContractCalls + 1 }
  | .rebalanceConfirmed, s => { s with rebalances := s.rebalances + 1 }

/-- Effect of a whole run (any interleaving of counter mutations, in
order). -/
def applyEvents (evs : List StatsEvent) (s : ActivityStats) : ActivityStats :=
  evs.foldl (fun t e => applyEvent e t) s

/-- A counter either stays unchanged or grows by exactly one. -/
def IncBy01 (x y : Nat) : Prop := y = x ∨ y = x + 1

/-- Pointwise "unchanged or incremented by 1" over all eight counters. -/
def StatsStep (s t : ActivityStats) : Prop :=
  IncBy01 s.totalTransactions t.totalTransactions ∧
  IncBy01 s.swaps t.swaps ∧
  IncBy01 s.addsLiquidity t.addsLiquidity ∧
  IncBy01 s.removesLiquidity t.removesLiquidity ∧
  IncBy01 s.sendsAndReceives t.sendsAndReceives ∧
  IncBy01 s.randomSends t.randomSends ∧
  IncBy01 s.customContractCalls t.customContractCalls ∧
  IncBy01 s.rebalances t.rebalances

/-- Pointwise order on all eight counters. -/
def StatsLE (s t : ActivityStats) : Prop :=
  s.totalTransactions ≤ t.totalTransactions ∧
  s.swaps ≤ t.swaps ∧
  s.addsLiquidity ≤ t.addsLiquidity ∧
  s.removesLiquidity ≤ t.removesLiquidity ∧
  s.sendsAndReceives ≤ t.sendsAndReceives ∧
  s.randomSends ≤ t.randomSends ∧
  s.customContractCalls ≤ t.customContractCalls ∧
  s.rebalances ≤ t.rebalances

theorem statsStep_applyEvent (e : StatsEvent) (s : ActivityStats) :
    StatsStep s (applyEvent e s) := by
  cases e <;> simp [applyEvent, StatsStep, IncBy01]

theorem statsLE_of_step {s t : ActivityStats} (h : StatsStep s t) :
    StatsLE s t := by
  obtain ⟨h1, h2, h3, h4, h5, h6, h7, h8⟩ := h
  refine ⟨?_, ?_, ?_, ?_, ?_, ?_, ?_, ?_⟩ <;>
    first
    | (rcases h1 with h | h <;> omega)
    | (rcases h2 with h | h <;> omega)
    | (rcases h3 with h | h <;> omega)
    | (rcases h4 with h | h <;> omega)
    | (rcases h5 with h | h <;> omega)
    | (rcases h6 with h | h <;> omega)
    | (rcases h7 with h | h <;> omega)
    | (rcases h8 with h | h <;> omega)

theorem statsLE_refl (s : ActivityStats) : StatsLE s s := by
  refine ⟨?_, ?_, ?_, ?_, ?_, ?_, ?_, ?_⟩ <;> omega

theorem statsLE_trans {a b c : ActivityStats}
    (h1 : StatsLE a b) (h2 : StatsLE b c) : StatsLE a c := by
  obtain ⟨x1, x2, x3, x4, x5, x6, x7, x8⟩ := h1
  obtain ⟨y1, y2, y3, y4, y5, y6, y7, y8⟩ := h2
  refine ⟨?_, ?_, ?_, ?_, ?_, ?_, ?_, ?_⟩ <;> omega

theorem statsLE_applyEvents (evs : List StatsEvent) :
    ∀ s : ActivityStats, StatsLE s (applyEvents evs s) := by
  induction evs with
  | nil => intro s; exact statsLE_refl s
  | cons e rest ih =>
    intro s
    exact statsLE_trans
      (statsLE_of_step (statsStep_applyEvent e s))
      (ih (applyEvent e s))

/-! ## Claim theorems -/

/-- **C1.** `withRetry` increments `totalTransactions` exactly once per
retry attempt on which the action closure returned a valid transaction
handle (an object with a defined hash), never per logical call: over
the attempts actually executed (recorded in `gasCalls`), the counter
equals the number of attempts that reached the send.  In particular, a
submission confirming with on-chain success status on the first attempt
increments the counter exactly once and performs zero backoff sleeps,
and one that times out on attempt 1 and confirms on attempt 2 returns
the attempt-2 receipt with the counter incremented twice. -/
theorem claim_C1_counter_per_attempt :
    (∀ (script : Nat → Outcome) (maxRetries : Int) (d : Nat),
      (withRetry script maxRetries d).2.txCount =
        ((withRetry script maxRetries d).2.gasCalls).countP
          (fun j => countsTx (script j))) ∧
    (∀ (script : Nat → Outcome) (maxRetries : Int) (d : Nat)
        (h : Nat) (rec : Receipt),
      1 ≤ maxRetries →
      script 0 = .sent h (.receiptOf (some rec)) →
      rec.status = 1 →
      withRetry script maxRetries d = (.ok rec, ⟨1, [], [0], [0]⟩)) ∧
    (∀ (script : Nat → Outcome) (maxRetries : Int) (d : Nat)
        (h1 h2 : Nat) (rec : Receipt),
      2 ≤ maxRetries →
      script 0 = .sent h1 .timeout →
      script 1 = .sent h2 (.receiptOf (some rec)) →
      rec.status = 1 →
      withRetry script maxRetries d = (.ok rec, ⟨2, [d * 1], [0, 1], [0, 1]⟩)) := by
  refine ⟨?_, ?_, ?_⟩
  · intro script maxRetries d
    exact withRetryGo_txCount script d maxRetries.toNat 0
  · intro script maxRetries d h rec hge hs0 hst
    obtain ⟨k, hk⟩ : ∃ k, maxRetries.toNat = k + 1 := ⟨maxRetries.toNat - 1, by omega⟩
    rw [withRetry, hk, withRetryGo]
    simp [hs0, attemptEval, hst, txInc, countsTx, funcCallsOf, invokesFunc]
  · intro script maxRetries d h1 h2 rec hge hs0 hs1 hst
    obtain ⟨k, hk⟩ : ∃ k, maxRetries.toNat = k + 2 := ⟨maxRetries.toNat - 2, by omega⟩
    rw [withRetry, hk, withRetryGo]
    simp only [hs0, attemptEval]
    rw [withRetryGo]
    simp [hs1, attemptEval, hst, txInc, countsTx, funcCallsOf, invokesFunc]

/-- Concrete run for the C1 scenarios: attempt 0 times out, attempt 1
confirms with status 1. -/
def c1Script : Nat → Outcome := fun i =>
  if i = 0 then .sent 5 .timeout else .sent 6 (.receiptOf (some ⟨1, 99⟩))

theorem claim_C1_witness :
    withRetry c1Script 3 1000 = (.ok ⟨1, 99⟩, ⟨2, [1000], [0, 1], [0, 1]⟩) :=
  claim_C1_counter_per_attempt.2.2 c1Script 3 1000 5 6 ⟨1, 99⟩
    (by decide) rfl rfl rfl

/-- **C2 counterexample.** The claim says a closure that always throws
a precondition failure before sending is surfaced "after exactly one
attempt, without retrying".  On the code, with the default
`maxRetries = 3`, the catch-all at bot.js:543-551 retries such a
closure: it is invoked on all three attempts (`funcCalls = [0, 1, 2]`)
with two backoff sleeps in between — not one attempt.  (The other two
parts of the claim do hold: the counter stays 0 and the exact error is
surfaced.) -/
theorem claim_C2_counterexample :
    withRetry (fun _ => .closureThrows 7) 3 1000 =
      (.err (.closure 7), ⟨0, [1000, 2000], [0, 1, 2], [0, 1, 2]⟩) ∧
    ((withRetry (fun _ => .closureThrows 7) 3 1000).2.funcCalls).length ≠ 1 := by
  constructor
  · rfl
  · decide

/-- **C2 (amended).** For a closure that always throws the same
precondition error before sending: `withRetry` never increments the
total-transaction counter and surfaces that exact error to its caller —
but only after exhausting all `maxRetries` attempts, re-invoking the
closure on every attempt with backoff sleeps in between, not after a
single attempt. -/
theorem claim_C2_precondition_failure :
    ∀ (c : Nat) (maxRetries : Int) (d : Nat), 1 ≤ maxRetries →
      withRetry (fun _ => .closureThrows c) maxRetries d =
        (.err (.closure c),
         ⟨0,
          (List.range' 1 (maxRetries.toNat - 1)).map (fun k => d * k),
          List.range' 0 maxRetries.toNat,
          List.range' 0 maxRetries.toNat⟩) := by
  intro c maxRetries d hge
  obtain ⟨r, hr⟩ : ∃ r, maxRetries.toNat = r + 1 := ⟨maxRetries.toNat - 1, by omega⟩
  have hf : ∀ j : Nat, attemptEval ((fun _ : Nat => Outcome.closureThrows c) j) =
      Except.error ((fun _ : Nat => Err.closure c) j) := by
    intro j
    rfl
  obtain ⟨h1, h2, h3⟩ :=
    withRetryGo_allFail (fun _ => .closureThrows c) d (fun _ => .closure c) hf r 0
  have h4 := withRetryGo_txCount (fun _ => .closureThrows c) d (r + 1) 0
  have h5 := withRetryGo_funcCalls (fun _ => .closureThrows c) d (r + 1) 0
  rw [withRetry, hr]
  have hzr : r + 1 - 1 = r := by omega
  rw [hzr]
  refine Prod.ext ?_ ?_
  · simpa using h1
  · refine RunStats.ext ?_ ?_ ?_ ?_
    · rw [h4]
      simp [countsTx, List.countP_eq_zero]
    · exact h2
    · exact h3
    · rw [h5, h3]
      simp [invokesFunc]

/-- Concrete run for the amended C2: two attempts, one sleep, zero
counter increments, exact closure error surfaced. -/
theorem claim_C2_witness :
    withRetry (fun _ => .closureThrows 9) 2 10 =
      (.err (.closure 9), ⟨0, [10], [0, 1], [0, 1]⟩) :=
  claim_C2_precondition_failure 9 2 10 (by decide)

/-- **C3.** For a call with `maxRetries = n ≥ 1` on which every attempt
fails: the estimator is called with the consecutive attempt indices
`0, 1, ..., n-1` (the buffer it applies is strictly raised at each
step), the backoff sleeps are `initialBackoffMs * (i+1)` for each
failed attempt `i` with attempts remaining (linear backoff), and after
the `n`-th consecutive failure the last observed error is thrown. -/
theorem claim_C3_linear_backoff :
    ∀ (script : Nat → Outcome) (es : Nat → Err) (n d : Nat),
      (∀ j, attemptEval (script j) = .error (es j)) → 1 ≤ n →
      (withRetry script (n : Int) d).1 = .err (es (n - 1)) ∧
      (withRetry script (n : Int) d).2.sleeps =
        (List.range (n - 1)).map (fun i => d * (i + 1)) ∧
      (withRetry script (n : Int) d).2.gasCalls = List.range n ∧
      (∀ i, bufferTimes100 i < bufferTimes100 (i + 1)) := by
  intro script es n d hf hge
  obtain ⟨r, hr⟩ : ∃ r, n = r + 1 := ⟨n - 1, by omega⟩
  have htn : ((n : Int)).toNat = r + 1 := by omega
  obtain ⟨h1, h2, h3⟩ := withRetryGo_allFail script d es hf r 0
  rw [withRetry, htn]
  refine ⟨by simpa [hr] using h1, ?_, ?_, ?_⟩
  · rw [h2, hr]
    simp only [Nat.add_sub_cancel, List.range'_eq_map_range, List.map_map]
    apply List.map_congr_left
    intro i _
    simp [Nat.add_comm]
  · rw [h3, hr, List.range_eq_range']
  · intro i
    simp only [bufferTimes100]
    omega

/-- Concrete run for C3: every attempt times out, `n = 2`, `d = 7`. -/
theorem claim_C3_witness :
    (withRetry (fun i => .sent i .timeout) (2 : Int) 7).1 =
      .err .confirmTimeout ∧
    (withRetry (fun i => .sent i .timeout) (2 : Int) 7).2.sleeps = [7] ∧
    (withRetry (fun i => .sent i .timeout) (2 : Int) 7).2.gasCalls = [0, 1] ∧
    bufferTimes100 0 < bufferTimes100 1 := by
  have h := claim_C3_linear_backoff (fun i => .sent i .timeout)
    (fun _ => .confirmTimeout) 2 7 (fun _ => rfl) (by omega)
  exact ⟨h.1, h.2.1, h.2.2.1, h.2.2.2 0⟩

/-- **C4.** The estimator's buffer multiplier (as the integer
`round(b*100)` the code actually applies) is monotonically
non-decreasing in the attempt index, and every field of the returned
gas quote — `maxFeePerGas` and `maxPriorityFeePerGas` in the EIP-1559
shape, `gasPrice` in the legacy shape — is a strictly positive
integer, for every fee-data read whatsoever (JavaScript truthiness of
`0n` routes zero suggestions to the positive defaults). -/
theorem claim_C4_buffer_monotone_quote_positive :
    (∀ i j : Nat, i ≤ j → bufferTimes100 i ≤ bufferTimes100 j) ∧
    (∀ (feeData : FeeData) (attemptIndex : Nat),
      quotePos (getGasPrice feeData attemptIndex)) := by
  constructor
  · intro i j hij
    simp only [bufferTimes100]
    omega
  · intro fee i
    rw [getGasPrice]
    by_cases hb : jsTruthy fee.maxFeePerGas && jsTruthy fee.maxPriorityFeePerGas
    · rw [if_pos hb]
      have hp : 1 ≤ fee.maxPriorityFeePerGas.getD 0 := by
        have h2 : jsTruthy fee.maxPriorityFeePerGas = true :=
          (Bool.and_eq_true _ _).mp hb |>.2
        cases hx : fee.maxPriorityFeePerGas with
        | none => rw [hx] at h2; simp [jsTruthy] at h2
        | some v =>
          rw [hx] at h2
          simp only [jsTruthy, decide_eq_true_eq] at h2
          simp only [Option.getD_some]
          omega
      have hprio := scaled_pos hp i
      exact ⟨by omega, hprio⟩
    · rw [if_neg hb]
      exact scaled_pos (jsOr_pos fee.gasPrice (by rw [TWENTY_GWEI]; positivity)) i

theorem claim_C4_witness :
    bufferTimes100 1 ≤ bufferTimes100 2 ∧
    quotePos (getGasPrice ⟨none, none, none, none⟩ 0) :=
  ⟨claim_C4_buffer_monotone_quote_positive.1 1 2 (by omega),
   claim_C4_buffer_monotone_quote_positive.2 ⟨none, none, none, none⟩ 0⟩

/-- **C5.** The estimator's arithmetic agrees everywhere with the
spec's description: when the fee data exposes (truthy) EIP-1559
fields, `maxPriorityFeePerGas = priorityFeeSuggestion * b` and
`maxFeePerGas = baseFee * b + maxPriorityFeePerGas`, and otherwise
`gasPrice = legacyGasPriceSuggestion * b`, each `* b` performed as
multiplication by `round(b*100)` (computed in exact arithmetic on the
spec side) followed by truncating division by 100, in that order. -/
theorem claim_C5_scaled_integer_arithmetic :
    ∀ (feeData : FeeData) (attemptIndex : Nat),
      getGasPrice feeData attemptIndex = getGasPriceSpec feeData attemptIndex := by
  intro fee i
  rw [getGasPrice, getGasPriceSpec]
  by_cases hb : jsTruthy fee.maxFeePerGas && jsTruthy fee.maxPriorityFeePerGas
  · rw [if_pos hb, if_pos hb]
    simp only [specScaledMul, specBufferScaled_toNat]
  · rw [if_neg hb, if_neg hb]
    simp only [specScaledMul, specBufferScaled_toNat]

/-- **C6.** The swap executor's minimum-output floor is
`expected * (10000 - toleranceBps) / 10000` in truncating integer
arithmetic at the configured 50 basis points; in particular an
expected output of 1,000,000 at 50 bps floors to exactly 995,000; and
a failed expected-output quote yields a zero floor (the swap proceeds,
the catch at bot.js:676-679 does not abort).  Same-input determinism
is immediate: the embedding is a function of the quote result alone. -/
theorem claim_C6_slippage_floor :
    (∀ expected : Nat,
      swapAmountOutMin (some expected) = specSlippageFloor expected 50) ∧
    swapAmountOutMin (some 1000000) = 995000 ∧
    swapAmountOutMin none = 0 := by
  refine ⟨?_, ?_, rfl⟩
  · intro e
    rw [swapAmountOutMin, specSlippageFloor, slippage_denominator_eq]
  · rw [swapAmountOutMin, slippage_denominator_eq]

/-- **C7.** The remove-liquidity executor computes the burn amount as
`balance * removeAmountPercentage / 100` in truncating integer
arithmetic (1,000,000 at 50% gives exactly 500,000), and it fails with
a precondition error — before the approval and `removeLiquidityETH`
submissions, which the source only reaches afterwards — whenever the
pool-share balance is 0 or the computed burn amount is exactly 0. -/
theorem claim_C7_remove_liquidity_amount :
    (∀ lpBalance pct amt : Nat,
      performRemoveLiquidityAmount lpBalance pct = .ok amt →
        amt = lpBalance * pct / 100) ∧
    performRemoveLiquidityAmount 1000000 50 = .ok 500000 ∧
    (∀ pct, performRemoveLiquidityAmount 0 pct = .error .noLpTokens) ∧
    (∀ lpBalance pct, lpBalance * pct / 100 = 0 →
      ∃ e, performRemoveLiquidityAmount lpBalance pct = .error e) := by
  refine ⟨?_, rfl, ?_, ?_⟩
  · intro b p a hok
    rw [performRemoveLiquidityAmount] at hok
    by_cases hb : b = 0
    · rw [if_pos hb] at hok
      exact absurd hok (by simp)
    · rw [if_neg hb] at hok
      by_cases hz : b * p / 100 = 0
      · rw [if_pos hz] at hok
        exact absurd hok (by simp)
      · rw [if_neg hz] at hok
        simpa using hok.symm
  · intro pct
    rw [performRemoveLiquidityAmount, if_pos rfl]
  · intro b p hz
    rw [performRemoveLiquidityAmount]
    by_cases hb : b = 0
    · exact ⟨.noLpTokens, by rw [if_pos hb]⟩
    · exact ⟨.zeroAmount, by rw [if_neg hb, if_pos hz]⟩

theorem claim_C7_witness :
    (100 : Nat) = 200 * 50 / 100 ∧
    ∃ e, performRemoveLiquidityAmount 3 10 = .error e :=
  ⟨claim_C7_remove_liquidity_amount.1 200 50 100 rfl,
   claim_C7_remove_liquidity_amount.2.2.2 3 10 (by decide)⟩

/-- Balances refuting C8's donor criterion on the repository's actual
configuration: the primary asset sits at 0.005 (below its 0.01
threshold), RISE at 0.015 — at least double RISE's own 0.005 threshold
(the claim's criterion) but below double the primary threshold (the
code's criterion at bot.js:1009). -/
def cexBalances (t : String) : ℚ :=
  if t = "XRP" then 1 / 200
  else if t = "RISE" then 3 / 200
  else 0

/-- **C8 counterexample.** With the configured thresholds and the
balances above, the primary asset is below its threshold and the
claim's selection rule ("first asset holding at least double its own
threshold") picks RISE, but `checkAndRebalance` performs no swap at
all: bot.js:1009 compares every candidate against double the PRIMARY
asset's threshold (`REBALANCE_THRESHOLDS.XRP * 2 = 0.02`), not the
candidate's own, and 0.015 < 0.02. -/
theorem claim_C8_counterexample :
    cexBalances "XRP" < REBALANCE_THRESHOLDS "XRP" ∧
    specSelectDonor TOKEN_KEYS REBALANCE_THRESHOLD_KEYS REBALANCE_THRESHOLDS
      cexBalances = some "RISE" ∧
    checkAndRebalance TOKEN_KEYS REBALANCE_THRESHOLD_KEYS REBALANCE_THRESHOLDS
      cexBalances = [] := by
  have cX : cexBalances "XRP" = 1 / 200 := by simp [cexBalances]
  have cW : cexBalances "WXRP" = 0 := by simp [cexBalances]
  have cR : cexBalances "RISE" = 3 / 200 := by simp [cexBalances]
  have cB : cexBalances "RIBBIT" = 0 := by simp [cexBalances]
  have tX : REBALANCE_THRESHOLDS "XRP" = 1 / 100 := by simp [REBALANCE_THRESHOLDS]
  have tR : REBALANCE_THRESHOLDS "RISE" = 1 / 200 := by simp [REBALANCE_THRESHOLDS]
  have hlow : cexBalances "XRP" < REBALANCE_THRESHOLDS "XRP" := by
    rw [cX, tX]
    norm_num
  refine ⟨hlow, ?_, ?_⟩
  · rw [specSelectDonor, TOKEN_KEYS]
    refine (List.find?_cons_of_neg _ ?_).trans (List.find?_cons_of_pos _ ?_)
    · simp [REBALANCE_THRESHOLD_KEYS]
    · simp only [decide_eq_true_eq, REBALANCE_THRESHOLD_KEYS, tR, cR]
      refine ⟨by simp, by simp, by norm_num⟩
  · rw [checkAndRebalance, if_pos hlow, TOKEN_KEYS]
    rw [donorScan, if_pos (Or.inr (by rw [cW, tX]; norm_num))]
    rw [donorScan, if_pos (Or.inr (by rw [cR, tX]; norm_num))]
    rw [donorScan, if_pos (Or.inr (by rw [cB, tX]; norm_num))]
    rw [donorScan]

/-- **C8 (amended).** When the primary gas-paying asset's balance is
below its rebalance threshold, `checkAndRebalance` scans the other
configured assets in deterministic configured iteration order and
selects the first one whose balance is at least double the PRIMARY
asset's threshold (not the candidate's own) and whose computed 5% swap
amount is positive; it swaps 5% of that asset (rounded to 4 decimal
places) for the primary asset through the retry core; and every call
performs at most one corrective swap. -/
theorem claim_C8_rebalance_selection :
    (∀ (tokens thrKeys : List String) (thr bal : String → ℚ),
      bal "XRP" < thr "XRP" →
      checkAndRebalance tokens thrKeys thr bal =
        ((tokens.find? (donorEligible (thr "XRP") bal)).map
          (fun t => ⟨t, "XRP", round4 (bal t * (5 / 100))⟩)).toList ∧
      ∀ t, donorEligible (thr "XRP") bal t = true ↔
        (t ≠ "XRP" ∧ thr "XRP" * 2 ≤ bal t ∧
         0 < round4 (bal t * (5 / 100)))) ∧
    (∀ (tokens thrKeys : List String) (thr bal : String → ℚ),
      (checkAndRebalance tokens thrKeys thr bal).length ≤ 1) := by
  constructor
  · intro tokens thrKeys thr bal hlow
    constructor
    · rw [checkAndRebalance, if_pos hlow, donorScan_eq_find]
      cases tokens.find? (donorEligible (thr "XRP") bal) with
      | none => rfl
      | some t => rfl
    · intro t
      simp only [donorEligible, decide_eq_true_eq, not_or, not_lt, not_le]
      constructor
      · rintro ⟨⟨hne, hge⟩, hpos⟩
        exact ⟨hne, hge, hpos⟩
      · rintro ⟨hne, hge, hpos⟩
        exact ⟨⟨hne, hge⟩, hpos⟩
  · intro tokens thrKeys thr bal
    rw [checkAndRebalance]
    by_cases hlow : bal "XRP" < thr "XRP"
    · rw [if_pos hlow]
      cases donorScan (thr "XRP") bal tokens with
      | none => simp
      | some p => simp
    · rw [if_neg hlow]
      exact secondaryScan_length_le_one thr bal thrKeys

/-- Balances for the amended C8: primary low, RISE at 0.1 — above
double the primary threshold, so it is the selected donor and 5% of it
(0.005) is swapped for the primary asset. -/
def witBalances (t : String) : ℚ :=
  if t = "XRP" then 1 / 200
  else if t = "RISE" then 1 / 10
  else 0

theorem claim_C8_witness :
    checkAndRebalance TOKEN_KEYS REBALANCE_THRESHOLD_KEYS REBALANCE_THRESHOLDS
      witBalances = [⟨"RISE", "XRP", 1 / 200⟩] := by
  have bW : witBalances "WXRP" = 0 := by simp [witBalances]
  have bR : witBalances "RISE" = 1 / 10 := by simp [witBalances]
  have tX : REBALANCE_THRESHOLDS "XRP" = 1 / 100 := by simp [REBALANCE_THRESHOLDS]
  have h := (claim_C8_rebalance_selection.1 TOKEN_KEYS REBALANCE_THRESHOLD_KEYS
    REBALANCE_THRESHOLDS witBalances
    (by simp [witBalances, tX]; norm_num)).1
  have hfind : List.find? (donorEligible (REBALANCE_THRESHOLDS "XRP") witBalances)
      ["WXRP", "RISE", "RIBBIT"] = some "RISE" := by
    refine (List.find?_cons_of_neg _ ?_).trans (List.find?_cons_of_pos _ ?_)
    · simp [donorEligible, bW, round4]
    · simp only [donorEligible, decide_eq_true_eq, not_or, not_lt, not_le, bR, tX]
      refine ⟨⟨by simp, by norm_num⟩, by norm_num [round4, round_eq]⟩
  rw [h, TOKEN_KEYS, hfind]
  simp only [Option.map_some', Option.toList_some, List.cons.injEq, and_true]
  refine congrArg (fun q => SwapCall.mk "RISE" "XRP" q) ?_
  rw [bR]
  norm_num [round4, round_eq]

/-- **C9.** With `maxRetries = 0` (or any non-positive value) the
`for (let i = 0; i < maxRetries; i++)` loop body never runs:
`withRetry` returns null — neither a receipt nor a thrown error —
without calling the gas price estimator, without invoking the action
closure, and without touching the total-transaction counter. -/
theorem claim_C9_nonpositive_retries :
    ∀ (script : Nat → Outcome) (maxRetries : Int) (d : Nat),
      maxRetries ≤ 0 →
      withRetry script maxRetries d = (.nil, ⟨0, [], [], []⟩) := by
  intro script maxRetries d hm
  have h0 : maxRetries.toNat = 0 := by omega
  rw [withRetry, h0, withRetryGo]

theorem claim_C9_witness :
    withRetry (fun _ => .invalidHandle) (-3) 5 = (.nil, ⟨0, [], [], []⟩) :=
  claim_C9_nonpositive_retries (fun _ => .invalidHandle) (-3) 5 (by decide)

/-- **C10.** Every counter field of the process-wide `activityStats`
record is monotonically non-decreasing: each of the program's
counter-mutating operations (the eight `++` sites enumerated by
`StatsEvent`) leaves every counter unchanged or increments it by
exactly 1, and across any run (any finite sequence of these
operations) no counter ever decreases or resets. -/
theorem claim_C10_counters_monotone :
    (∀ (e : StatsEvent) (s : ActivityStats), StatsStep s (applyEvent e s)) ∧
    (∀ (evs : List StatsEvent) (s : ActivityStats),
      StatsLE s (applyEvents evs s)) :=
  ⟨statsStep_applyEvent, fun evs s => statsLE_applyEvents evs s⟩

end XprlG
